import Mathlib

/-!
Verification development for the bfkmd repository (bkam / bufdn / bufcli
command line tools around a Bufkit sounding archive).

The Rust source is shallowly embedded: pure functions become Lean
functions, stateful loops become explicit state passing, `chrono`
timestamps become a record of calendar components, SQLite tables become
lists of rows, and fallible operations return `Except`.  Process aborts
(`panic!` / `std::process::exit`) are modelled as explicit constructors
of result types.
-/

namespace Bfkmd

/-- Model of `chrono::NaiveDateTime`: a calendar timestamp with whole
seconds.  `chrono` orders these chronologically, which for calendar
components is lexicographic order on
(year, month, day, hour, minute, second). -/
structure DateTime where
  year : Int
  month : Nat
  day : Nat
  hour : Nat
  minute : Nat
  second : Nat
deriving DecidableEq, Repr

/-- Lexicographic (chronological) `<=` on `DateTime`, modelling the derived
`Ord` of `chrono::NaiveDateTime` on valid dates. -/
def dtLe (a b : DateTime) : Prop :=
  a.year < b.year ∨ (a.year = b.year ∧
    (a.month < b.month ∨ (a.month = b.month ∧
      (a.day < b.day ∨ (a.day = b.day ∧
        (a.hour < b.hour ∨ (a.hour = b.hour ∧
          (a.minute < b.minute ∨ (a.minute = b.minute ∧
            a.second ≤ b.second)))))))))

/-- Lexicographic (chronological) `<` on `DateTime`. -/
def dtLt (a b : DateTime) : Prop :=
  a.year < b.year ∨ (a.year = b.year ∧
    (a.month < b.month ∨ (a.month = b.month ∧
      (a.day < b.day ∨ (a.day = b.day ∧
        (a.hour < b.hour ∨ (a.hour = b.hour ∧
          (a.minute < b.minute ∨ (a.minute = b.minute ∧
            a.second < b.second)))))))))

instance : DecidableRel dtLe := fun a b => by unfold dtLe; infer_instance

instance : DecidableRel dtLt := fun a b => by unfold dtLt; infer_instance

theorem dtLe_total (a b : DateTime) : dtLe a b ∨ dtLe b a := by
  unfold dtLe; omega

theorem dtLe_trans {a b c : DateTime} (hab : dtLe a b) (hbc : dtLe b c) :
    dtLe a c := by
  unfold dtLe at hab hbc ⊢; omega

/-- Proleptic-Gregorian leap-year test, as used by `chrono`. -/
def isLeapYear (y : Int) : Bool :=
  y % 4 == 0 && (y % 100 != 0 || y % 400 == 0)

/-- Days in a calendar month, as validated by `chrono::NaiveDate`. -/
def daysInMonth (y : Int) (m : Nat) : Nat :=
  if m = 1 then 31
  else if m = 2 then (if isLeapYear y then 29 else 28)
  else if m = 3 then 31
  else if m = 4 then 30
  else if m = 5 then 31
  else if m = 6 then 30
  else if m = 7 then 31
  else if m = 8 then 31
  else if m = 9 then 30
  else if m = 10 then 31
  else if m = 11 then 30
  else if m = 12 then 31
  else 0

/-- A calendar date (year, month, day). -/
abbrev Date := Int × Nat × Nat

/-- The day after a date (`chrono` date arithmetic, one step). -/
def nextDay : Date → Date
  | (y, m, d) =>
    if d < daysInMonth y m then (y, m, d + 1)
    else if m < 12 then (y, m + 1, 1)
    else (y + 1, 1, 1)

/-- The day before a date (`chrono` date arithmetic, one step). -/
def prevDay : Date → Date
  | (y, m, d) =>
    if 1 < d then (y, m, d - 1)
    else if 1 < m then (y, m - 1, daysInMonth y (m - 1))
    else (y - 1, 12, 31)

/-- `date + Duration::days(k)` for a natural `k`. -/
def addDays (k : Nat) (d : Date) : Date := nextDay^[k] d

/-- `date - Duration::days(k)` for a natural `k`. -/
def subDays (k : Nat) (d : Date) : Date := prevDay^[k] d

/-- One hour before a `DateTime` (`chrono` timestamp arithmetic, one step). -/
def prevHour (dt : DateTime) : DateTime :=
  if 0 < dt.hour then { dt with hour := dt.hour - 1 }
  else
    let (y, m, d) := prevDay (dt.year, dt.month, dt.day)
    { dt with year := y, month := m, day := d, hour := 23 }

/-- `timestamp - Duration::hours(k)` for a natural `k`. -/
def subHours (k : Nat) (dt : DateTime) : DateTime := prevHour^[k] dt

/-! ## `bfkmd::util` (src/util.rs)

`parse_date_string` slices the input string at byte positions 11 and 10,
parses an hour with `str::parse::<u32>` and a date with
`NaiveDate::parse_from_str(.., "%Y-%m-%d")`, and finishes with
`date.and_hms(hour, 0, 0)`.  Parse failures call `bail` (print + process
exit); an out-of-range slice or an `and_hms` with hour > 23 panics.
Inputs are modelled as lists of (ASCII) characters, one byte each. -/

/-- The three observable outcomes of `parse_date_string`:
a normal return, a `bail` (prints the error and exits the process with
status 1), or a Rust panic. -/
inductive DateParse where
  | ok (dt : DateTime)
  | bailed
  | panicked
deriving DecidableEq, Repr

/-- Numeric value of an ASCII digit. -/
def digitVal (c : Char) : Nat := c.toNat - 48

/-- Value of a list of ASCII digits (most significant first). -/
def digitsVal (cs : List Char) : Nat :=
  cs.foldl (fun acc c => acc * 10 + digitVal c) 0

/-- Model of `str::parse::<u32>`: an optional leading `+`, then one or
more ASCII digits, value below 2^32; anything else is an error. -/
def parseU32 (s : List Char) : Option Nat :=
  let digits := match s with
    | c :: rest => if c = '+' then some rest else some s
    | [] => none
  match digits with
  | none => none
  | some ds =>
    if ds ≠ [] ∧ ds.all Char.isDigit ∧ digitsVal ds < 2 ^ 32 then
      some (digitsVal ds)
    else none

/-- Model of `NaiveDate::parse_from_str(s, "%Y-%m-%d")` applied to the
10-byte slice `&dt_str[..10]`: exactly `dddd-dd-dd` with a calendar-valid
month and day.  (`chrono`'s parser is slightly more liberal about field
widths; the strict 4-2-2 shape is the one that fits the 10-byte slice
taken by the caller and is the form the spec's claims quantify over.) -/
def parseYmd (s : List Char) : Option Date :=
  match s with
  | [y1, y2, y3, y4, s1, m1, m2, s2, d1, d2] =>
    if ([y1, y2, y3, y4].all Char.isDigit ∧ s1 = '-' ∧
        [m1, m2].all Char.isDigit ∧ s2 = '-' ∧ [d1, d2].all Char.isDigit) then
      let y : Int := (digitsVal [y1, y2, y3, y4] : Nat)
      let m := digitsVal [m1, m2]
      let d := digitsVal [d1, d2]
      if 1 ≤ m ∧ m ≤ 12 ∧ 1 ≤ d ∧ d ≤ daysInMonth y m then some (y, m, d)
      else none
    else none
  | _ => none

/-- Model of `bfkmd::parse_date_string` (src/util.rs lines 10-22).
The hour text `&dt_str[11..]` is parsed first (slicing panics when the
string is shorter than 11 bytes), then the date text `&dt_str[..10]`,
and finally `date.and_hms(hour, 0, 0)` panics when hour > 23. -/
def parse_date_string (s : List Char) : DateParse :=
  if s.length < 11 then .panicked
  else
    match parseU32 (s.drop 11) with
    | none => .bailed
    | some hour =>
      match parseYmd (s.take 10) with
      | none => .bailed
      | some (y, m, d) =>
        if hour ≤ 23 then .ok ⟨y, m, d, hour, 0, 0⟩
        else .panicked

/-- C10: `parse_date_string` is total only on inputs of at least 11 bytes
whose hour field is at most 23.  On a well-formed `YYYY-MM-DD-HH` string
(hour text parseable as `u32` and at most 23, date text parseable as
`%Y-%m-%d`) it returns the parsed date-time with minutes and seconds zero;
on an unparseable hour text or date text it bails (prints and exits);
on any input shorter than 11 bytes it panics on the slice `dt_str[11..]`;
and on a parsed hour greater than 23 it panics inside `and_hms`. -/
theorem c10_parse_date_string_totality :
    (∀ (s : List Char) (h : Nat) (y : Int) (m d : Nat),
      11 ≤ s.length → parseU32 (s.drop 11) = some h →
      parseYmd (s.take 10) = some (y, m, d) → h ≤ 23 →
      parse_date_string s = .ok ⟨y, m, d, h, 0, 0⟩) ∧
    (∀ s : List Char, 11 ≤ s.length → parseU32 (s.drop 11) = none →
      parse_date_string s = .bailed) ∧
    (∀ (s : List Char) (h : Nat), 11 ≤ s.length →
      parseU32 (s.drop 11) = some h → parseYmd (s.take 10) = none →
      parse_date_string s = .bailed) ∧
    (∀ s : List Char, s.length < 11 → parse_date_string s = .panicked) ∧
    (∀ (s : List Char) (h : Nat) (y : Int) (m d : Nat),
      11 ≤ s.length → parseU32 (s.drop 11) = some h →
      parseYmd (s.take 10) = some (y, m, d) → 23 < h →
      parse_date_string s = .panicked) := by
  refine ⟨?_, ?_, ?_, ?_, ?_⟩
  · intro s h y m d hlen hu hd hh
    simp [parse_date_string, Nat.not_lt.mpr hlen, hu, hd, hh]
  · intro s hlen hu
    simp [parse_date_string, Nat.not_lt.mpr hlen, hu]
  · intro s h hlen hu hd
    simp [parse_date_string, Nat.not_lt.mpr hlen, hu, hd]
  · intro s hlen
    simp [parse_date_string, hlen]
  · intro s h y m d hlen hu hd hh
    simp [parse_date_string, Nat.not_lt.mpr hlen, hu, hd, Nat.not_le.mpr hh]

/-- Witness for C10 at concrete inputs: a well-formed string parses,
a garbled hour or an invalid date bails, a short string panics, and an
out-of-range hour panics. -/
theorem c10_parse_date_string_totality_witness :
    parse_date_string "2024-07-01-16".toList = .ok ⟨2024, 7, 1, 16, 0, 0⟩ ∧
    parse_date_string "2024-07-01-xx".toList = .bailed ∧
    parse_date_string "2024-13-01-12".toList = .bailed ∧
    parse_date_string "short".toList = .panicked ∧
    parse_date_string "2024-07-01-99".toList = .panicked := by
  refine ⟨?_, ?_, ?_, ?_, ?_⟩
  · exact c10_parse_date_string_totality.1 _ 16 2024 7 1 (by decide)
      (by decide) (by decide) (by decide)
  · exact c10_parse_date_string_totality.2.1 _ (by decide) (by decide)
  · exact c10_parse_date_string_totality.2.2.1 _ 12 (by decide) (by decide)
      (by decide)
  · exact c10_parse_date_string_totality.2.2.2.1 _ (by decide)
  · exact c10_parse_date_string_totality.2.2.2.2 _ 99 2024 7 1 (by decide)
      (by decide) (by decide) (by decide)

/-! ## Climatology store (src/bin/bufcli/climo_db.rs, src/climo/mod.rs)

The `fire` table is modelled as a list of rows for one (site, model)
pair — `ClimoDBInterface` is initialised per site and model and all of
its SQL is filtered on that pair. -/

/-- A row of the `fire` table as written by `add_fire`:
`(valid_time, year, month, day, hour, haines_high, haines_mid,
haines_low, hdw)`.  `year` is an `i32`, `month`/`day`/`hour` are `u32`
components, the indices are `i32`. -/
structure FireRow where
  valid_time : DateTime
  year : Int
  month : Nat
  day : Nat
  hour : Nat
  haines_high : Int
  haines_mid : Int
  haines_low : Int
  hdw : Int
deriving DecidableEq, Repr

/-- Model of `ClimoDBInterface::add_fire` (climo_db.rs lines 188-212): the
row's `year`/`month`/`day`/`hour` columns are taken directly from the
accessors of the `valid_time` argument; no UTC offset is consulted. -/
def add_fire (valid_time : DateTime) (hns_high_mid_low : Int × Int × Int)
    (hdw : Int) : FireRow :=
  { valid_time := valid_time
    year := valid_time.year
    month := valid_time.month
    day := valid_time.day
    hour := valid_time.hour
    haines_high := hns_high_mid_low.1
    haines_mid := hns_high_mid_low.2.1
    haines_low := hns_high_mid_low.2.2
    hdw := hdw }

/-- Model of the `fire` insert in `build_climo` (src/climo/mod.rs lines
67-102): the bound year/month/day/hour parameters, again taken directly
from `valid_time` with no offset. -/
def build_climo_fire_fields (valid_time : DateTime) : Int × Nat × Nat × Nat :=
  (valid_time.year, valid_time.month, valid_time.day, valid_time.hour)

/-- C1 (counterexample): for a site with UTC offset −7h and
valid_time 2024-07-01T23:00Z the claim predicts a stored row with
(year 2024, month 7, day 1, hour 16); the code stores hour 23 —
`add_fire` never applies an offset. -/
theorem c1_add_fire_counterexample :
    (add_fire ⟨2024, 7, 1, 23, 0, 0⟩ (0, 0, 0) 0).hour = 23 ∧
    ¬((add_fire ⟨2024, 7, 1, 23, 0, 0⟩ (0, 0, 0) 0).year = 2024 ∧
      (add_fire ⟨2024, 7, 1, 23, 0, 0⟩ (0, 0, 0) 0).month = 7 ∧
      (add_fire ⟨2024, 7, 1, 23, 0, 0⟩ (0, 0, 0) 0).day = 1 ∧
      (add_fire ⟨2024, 7, 1, 23, 0, 0⟩ (0, 0, 0) 0).hour = 16) := by
  refine ⟨rfl, ?_⟩
  intro h
  exact absurd h.2.2.2 (by decide)

/-- C1 (amended): for every fire-climatology row written by the
climatology pipeline, the year/month/day/hour fields stored with the
row are the UTC components of the row's valid_time; no site UTC offset
is applied. -/
theorem c1_add_fire_stores_utc_components (vt : DateTime)
    (hns : Int × Int × Int) (hdw : Int) :
    (add_fire vt hns hdw).year = vt.year ∧
    (add_fire vt hns hdw).month = vt.month ∧
    (add_fire vt hns hdw).day = vt.day ∧
    (add_fire vt hns hdw).hour = vt.hour ∧
    build_climo_fire_fields vt = (vt.year, vt.month, vt.day, vt.hour) :=
  ⟨rfl, rfl, rfl, rfl, rfl⟩

/-! ### `ClimoDBInterface::calc_fire_summary` (climo_db.rs lines 214-397)

The two SQL queries are modelled over the in-memory `fire` table:
daily maxima grouped by (year, month, day) ordered by max-HDW ascending,
and the "evening" rows selected with `hour = 0`.  `f64` relative
frequencies are modelled as exact rationals, and the `f32` percentile
index as exact rounding. -/

/-- Duplicate removal keeping the first occurrence of each element
(the order SQL groups are first encountered in). -/
def dedupFirstGo [DecidableEq α] (seen : List α) : List α → List α
  | [] => []
  | a :: as =>
    if a ∈ seen then dedupFirstGo seen as
    else a :: dedupFirstGo (a :: seen) as

/-- Duplicate removal keeping first occurrences. -/
def dedupFirst [DecidableEq α] (l : List α) : List α := dedupFirstGo [] l

/-- Maximum of a list of `i32` values (`MAX(hdw)` over a non-empty group). -/
def maxList : List Int → Int
  | [] => 0
  | x :: xs => xs.foldl max x

/-- Model of the daily-max-HDW query:
`SELECT month,day,MAX(hdw) FROM fire GROUP BY year,month,day ORDER BY hdw ASC`.
Returns `(month, day, max hdw)` tuples (as `i32`), sorted by max HDW
ascending. -/
def daily_max_hdw (tbl : List FireRow) : List (Int × Int × Int) :=
  let keys := dedupFirst (tbl.map (fun r => (r.year, r.month, r.day)))
  let grouped := keys.map (fun k =>
    ((k.2.1 : Int), (k.2.2 : Int),
      maxList ((tbl.filter
        (fun r => (r.year, r.month, r.day) == k)).map (·.hdw))))
  grouped.insertionSort (fun a b => a.2.2 ≤ b.2.2)

/-- Model of the evening-Haines query:
`SELECT month,day,haines_high,haines_mid,haines_low FROM fire WHERE hour = 0`.
Note the filter is on `hour = 0`, not 16. -/
def evening_haines (tbl : List FireRow) : List (Int × Int × Int × Int × Int) :=
  (tbl.filter (fun r => r.hour == 0)).map
    (fun r => ((r.month : Int), (r.day : Int),
      r.haines_high, r.haines_mid, r.haines_low))

/-- `static DAYS_PER_MONTH` from `calc_fire_summary` (February has 28). -/
def DAYS_PER_MONTH : List Nat := [31, 28, 31, 30, 31, 30, 31, 31, 30, 31, 30, 31]

/-- The (month, day) pairs visited by the summary loop:
`for month in 1..=12 { for day in 1..=DAYS_PER_MONTH[month-1] }`. -/
def allSummaryDays : List (Nat × Nat) :=
  (List.range 12).flatMap (fun i =>
    (List.range (DAYS_PER_MONTH.getD i 0)).map (fun j => (i + 1, j + 1)))

/-- `center_date - Duration::days(7)` for `NaiveDate::from_ymd(2019, month, day)`. -/
def window_first (month day : Nat) : Date := subDays 7 ((2019 : Int), month, day)

/-- `center_date + Duration::days(7)`. -/
def window_last (month day : Nat) : Date := addDays 7 ((2019 : Int), month, day)

/-- `first_date.month() as i32`. -/
def first_month (month day : Nat) : Int := ((window_first month day).2.1 : Int)

/-- `first_date.day() as i32`. -/
def first_day (month day : Nat) : Int := ((window_first month day).2.2 : Int)

/-- `last_date.month() as i32`. -/
def last_month (month day : Nat) : Int := ((window_last month day).2.1 : Int)

/-- `last_date.day() as i32`. -/
def last_day (month day : Nat) : Int := ((window_last month day).2.2 : Int)

/-- The 15-day-window membership test applied to a queried `(month, day)`
pair, exactly as written in both `filter_map` closures of
`calc_fire_summary`. -/
def window_pred (month day : Nat) (m d : Int) : Bool :=
  let fm := first_month month day
  let fd := first_day month day
  let lm := last_month month day
  let ld := last_day month day
  (decide (fm = lm) && decide (m = fm) && decide (fd ≤ d) && decide (d ≤ ld)) ||
  (decide (fm ≠ lm) && decide (m = fm) && decide (fd ≤ d)) ||
  (decide (fm ≠ lm) && decide (m = lm) && decide (d ≤ ld))

/-- The per-category Haines tallies
`(haines_xxx.0, .1, .2, .3, .4, .5)` for categories 0,2,3,4,5,6. -/
structure HainesCounts where
  c0 : Nat
  c2 : Nat
  c3 : Nat
  c4 : Nat
  c5 : Nat
  c6 : Nat
deriving DecidableEq, Repr

/-- The initial `(0, 0, 0, 0, 0, 0)` tally. -/
def HainesCounts.zero : HainesCounts := ⟨0, 0, 0, 0, 0, 0⟩

/-- Sum of the six category tallies. -/
def HainesCounts.total6 (c : HainesCounts) : Nat :=
  c.c0 + c.c2 + c.c3 + c.c4 + c.c5 + c.c6

/-- The tally for a given category value. -/
def HainesCounts.cat (c : HainesCounts) (v : Int) : Nat :=
  if v = 0 then c.c0 else if v = 2 then c.c2 else if v = 3 then c.c3
  else if v = 4 then c.c4 else if v = 5 then c.c5 else if v = 6 then c.c6
  else 0

/-- One `match` arm of the counting loop: increment the tally for a
Haines value, or panic (`"Invalid Haines value"`) on any value outside
{0,2,3,4,5,6}. -/
def bump (c : HainesCounts) (v : Int) : Except String HainesCounts :=
  if v = 0 then .ok { c with c0 := c.c0 + 1 }
  else if v = 2 then .ok { c with c2 := c.c2 + 1 }
  else if v = 3 then .ok { c with c3 := c.c3 + 1 }
  else if v = 4 then .ok { c with c4 := c.c4 + 1 }
  else if v = 5 then .ok { c with c5 := c.c5 + 1 }
  else if v = 6 then .ok { c with c6 := c.c6 + 1 }
  else .error "Invalid Haines value"

/-- The counting `for_each` of `calc_fire_summary`: total count plus the
high/mid/low tallies over the windowed evening rows; the panic on an
invalid Haines value is modelled as an error. -/
def count_haines :
    List (Int × Int × Int × Int × Int) →
    Except String (Nat × HainesCounts × HainesCounts × HainesCounts)
  | [] => .ok (0, .zero, .zero, .zero)
  | x :: rest =>
    match count_haines rest with
    | .error e => .error e
    | .ok (t, chi, cmi, clo) =>
      match bump chi x.2.2.1 with
      | .error e => .error e
      | .ok chi =>
        match bump cmi x.2.2.2.1 with
        | .error e => .error e
        | .ok cmi =>
          match bump clo x.2.2.2.2 with
          | .error e => .error e
          | .ok clo => .ok (t + 1, chi, cmi, clo)

/-- The six relative frequencies `count as f64 / haines_total`, with the
`f64` divisions modelled as exact rational divisions (`0/0` is `0`). -/
def HainesCounts.freqs (c : HainesCounts) (total : Nat) : List ℚ :=
  [(c.c0 : ℚ) / (total : ℚ), (c.c2 : ℚ) / (total : ℚ),
   (c.c3 : ℚ) / (total : ℚ), (c.c4 : ℚ) / (total : ℚ),
   (c.c5 : ℚ) / (total : ℚ), (c.c6 : ℚ) / (total : ℚ)]

/-- `pct_idx`: `((len - 1) as f32 / 100.0 * pctl as f32).round() as usize`,
modelled as exact round-half-away-from-zero on rationals. -/
def pct_idx (pctl len : Nat) : Nat := (2 * ((len - 1) * pctl) + 100) / 200

/-- The `[min, 10th, …, 90th, max]` percentile selections from the
ascending `hdw_vals`. -/
def hdw_pcts_of (vals : List Int) : List Int :=
  [vals.getD 0 0,
   vals.getD (pct_idx 10 vals.length) 0,
   vals.getD (pct_idx 20 vals.length) 0,
   vals.getD (pct_idx 30 vals.length) 0,
   vals.getD (pct_idx 40 vals.length) 0,
   vals.getD (pct_idx 50 vals.length) 0,
   vals.getD (pct_idx 60 vals.length) 0,
   vals.getD (pct_idx 70 vals.length) 0,
   vals.getD (pct_idx 80 vals.length) 0,
   vals.getD (pct_idx 90 vals.length) 0,
   vals.getD (vals.length - 1) 0]

/-- One output row of `calc_fire_summary`. -/
structure FireSummaryRow where
  month : Nat
  day : Nat
  hdw_pcts : List Int
  haines_low_pcts : List ℚ
  haines_mid_pcts : List ℚ
  haines_high_pcts : List ℚ
  num_samples : Nat
deriving DecidableEq, Repr

/-- One iteration of the day loop of `calc_fire_summary`. -/
def compute_row (dm : List (Int × Int × Int))
    (ev : List (Int × Int × Int × Int × Int)) (month day : Nat) :
    Except String FireSummaryRow :=
  let hdw_vals := dm.filterMap (fun t =>
    if window_pred month day t.1 t.2.1 then some t.2.2 else none)
  if hdw_vals.isEmpty then .error "Not enough data"
  else
    match count_haines (ev.filter (fun t => window_pred month day t.1 t.2.1)) with
    | .error e => .error e
    | .ok (total, chi, cmi, clo) =>
      .ok { month := month, day := day
            hdw_pcts := hdw_pcts_of hdw_vals
            haines_low_pcts := clo.freqs total
            haines_mid_pcts := cmi.freqs total
            haines_high_pcts := chi.freqs total
            num_samples := hdw_vals.length }

/-- The day loop of `calc_fire_summary`, pushing one row per (month, day)
and propagating the early `return Err(..)`. -/
def summary_loop (dm : List (Int × Int × Int))
    (ev : List (Int × Int × Int × Int × Int)) :
    List (Nat × Nat) → Except String (List FireSummaryRow)
  | [] => .ok []
  | md :: rest =>
    match compute_row dm ev md.1 md.2 with
    | .error e => .error e
    | .ok r =>
      match summary_loop dm ev rest with
      | .error e => .error e
      | .ok rs => .ok (r :: rs)

/-- Model of `ClimoDBInterface::calc_fire_summary`: the daily-max and
evening queries, the "Not enough data" guard on an empty daily-max
result, and the day loop over the 365 (month, day) pairs of
`DAYS_PER_MONTH`. -/
def calc_fire_summary (tbl : List FireRow) :
    Except String (List FireSummaryRow) :=
  let dm := daily_max_hdw tbl
  if dm.isEmpty then .error "Not enough data"
  else summary_loop dm (evening_haines tbl) allSummaryDays

/-! ### Declarative companions used to state the C2/C3 properties -/

/-- Number of occurrences of a Haines category value in a list. -/
def countCat (vals : List Int) (v : Int) : Nat :=
  match vals with
  | [] => 0
  | x :: rest => countCat rest v + (if x = v then 1 else 0)

/-- The Haines categories counted by `calc_fire_summary`. -/
def hainesCats : List Int := [0, 2, 3, 4, 5, 6]

/-- Relative frequencies per category from raw values: count divided by
the given total. -/
def freqs_from (vals : List Int) (total : Nat) : List ℚ :=
  hainesCats.map (fun v => (countCat vals v : ℚ) / (total : ℚ))

/-- The evening (`hour = 0`) rows falling in the 15-day window centred on
(month, day). -/
def evening_window (tbl : List FireRow) (m d : Nat) :
    List (Int × Int × Int × Int × Int) :=
  (evening_haines tbl).filter (fun t => window_pred m d t.1 t.2.1)

theorem length_filterMap_if {α β : Type} (l : List α) (p : α → Bool)
    (f : α → β) :
    (l.filterMap (fun x => if p x then some (f x) else none)).length =
      (l.filter p).length := by
  induction l with
  | nil => rfl
  | cons x xs ih => by_cases h : p x <;> simp [h, ih]

theorem bump_ok {c : HainesCounts} {v : Int} {c' : HainesCounts}
    (h : bump c v = .ok c') :
    c'.total6 = c.total6 + 1 ∧
    ∀ u : Int, c'.cat u = c.cat u + (if u = v then 1 else 0) := by
  unfold bump at h
  split_ifs at h with h0 h2 h3 h4 h5 h6
  · injection h with h; subst h; subst h0
    refine ⟨by dsimp only [HainesCounts.total6]; omega, ?_⟩
    intro u; dsimp only [HainesCounts.cat]; split_ifs <;> omega
  · injection h with h; subst h; subst h2
    refine ⟨by dsimp only [HainesCounts.total6]; omega, ?_⟩
    intro u; dsimp only [HainesCounts.cat]; split_ifs <;> omega
  · injection h with h; subst h; subst h3
    refine ⟨by dsimp only [HainesCounts.total6]; omega, ?_⟩
    intro u; dsimp only [HainesCounts.cat]; split_ifs <;> omega
  · injection h with h; subst h; subst h4
    refine ⟨by dsimp only [HainesCounts.total6]; omega, ?_⟩
    intro u; dsimp only [HainesCounts.cat]; split_ifs <;> omega
  · injection h with h; subst h; subst h5
    refine ⟨by dsimp only [HainesCounts.total6]; omega, ?_⟩
    intro u; dsimp only [HainesCounts.cat]; split_ifs <;> omega
  · injection h with h; subst h; subst h6
    refine ⟨by dsimp only [HainesCounts.total6]; omega, ?_⟩
    intro u; dsimp only [HainesCounts.cat]; split_ifs <;> omega

theorem count_haines_ok {l : List (Int × Int × Int × Int × Int)}
    {t : Nat} {chi cmi clo : HainesCounts}
    (h : count_haines l = .ok (t, chi, cmi, clo)) :
    t = l.length ∧
    chi.total6 = l.length ∧ cmi.total6 = l.length ∧ clo.total6 = l.length ∧
    (∀ u : Int, chi.cat u = countCat (l.map (fun x => x.2.2.1)) u) ∧
    (∀ u : Int, cmi.cat u = countCat (l.map (fun x => x.2.2.2.1)) u) ∧
    (∀ u : Int, clo.cat u = countCat (l.map (fun x => x.2.2.2.2)) u) := by
  induction l generalizing t chi cmi clo with
  | nil =>
    simp only [count_haines] at h
    injection h with h
    injection h with h1 h
    injection h with h2 h
    injection h with h3 h4
    subst h1; subst h2; subst h3; subst h4
    refine ⟨rfl, rfl, rfl, rfl, ?_, ?_, ?_⟩ <;>
      (intro u; simp only [HainesCounts.cat, HainesCounts.zero, List.map_nil,
        countCat]; split_ifs <;> rfl)
  | cons x rest ih =>
    simp only [count_haines] at h
    cases hr : count_haines rest with
    | error e => rw [hr] at h; simp at h
    | ok q =>
      obtain ⟨t', chi', cmi', clo'⟩ := q
      rw [hr] at h
      dsimp only at h
      cases hb1 : bump chi' x.2.2.1 with
      | error e => rw [hb1] at h; simp at h
      | ok chi1 =>
        rw [hb1] at h
        dsimp only at h
        cases hb2 : bump cmi' x.2.2.2.1 with
        | error e => rw [hb2] at h; simp at h
        | ok cmi1 =>
          rw [hb2] at h
          dsimp only at h
          cases hb3 : bump clo' x.2.2.2.2 with
          | error e => rw [hb3] at h; simp at h
          | ok clo1 =>
            rw [hb3] at h
            dsimp only at h
            injection h with h
            injection h with h1 h
            injection h with h2 h
            injection h with h3 h4
            subst h1; subst h2; subst h3; subst h4
            obtain ⟨iht, ihhi, ihmi, ihlo, ihchi, ihcmi, ihclo⟩ := ih hr
            obtain ⟨b1t, b1c⟩ := bump_ok hb1
            obtain ⟨b2t, b2c⟩ := bump_ok hb2
            obtain ⟨b3t, b3c⟩ := bump_ok hb3
            refine ⟨by simp [iht], by simp [b1t, ihhi],
              by simp [b2t, ihmi], by simp [b3t, ihlo], ?_, ?_, ?_⟩
            · intro u
              simp only [List.map_cons, countCat, b1c u, ihchi u]
              by_cases hu : u = x.2.2.1
              · simp [hu]
              · simp [hu, Ne.symm hu]
            · intro u
              simp only [List.map_cons, countCat, b2c u, ihcmi u]
              by_cases hu : u = x.2.2.2.1
              · simp [hu]
              · simp [hu, Ne.symm hu]
            · intro u
              simp only [List.map_cons, countCat, b3c u, ihclo u]
              by_cases hu : u = x.2.2.2.2
              · simp [hu]
              · simp [hu, Ne.symm hu]

theorem freqs_eq_freqs_from {c : HainesCounts} {vals : List Int} {n : Nat}
    (hcat : ∀ u : Int, c.cat u = countCat vals u) :
    c.freqs n = freqs_from vals n := by
  have h0 := hcat 0
  have h2 := hcat 2
  have h3 := hcat 3
  have h4 := hcat 4
  have h5 := hcat 5
  have h6 := hcat 6
  simp only [HainesCounts.cat] at h0 h2 h3 h4 h5 h6
  norm_num at h0 h2 h3 h4 h5 h6
  simp [HainesCounts.freqs, freqs_from, hainesCats, h0, h2, h3, h4, h5, h6]

theorem sum_countCat_of_total6 {c : HainesCounts} {vals : List Int} {n : Nat}
    (hcat : ∀ u : Int, c.cat u = countCat vals u) (htot : c.total6 = n) :
    (hainesCats.map (countCat vals)).sum = n := by
  have h0 := hcat 0
  have h2 := hcat 2
  have h3 := hcat 3
  have h4 := hcat 4
  have h5 := hcat 5
  have h6 := hcat 6
  simp only [HainesCounts.cat] at h0 h2 h3 h4 h5 h6
  norm_num at h0 h2 h3 h4 h5 h6
  simp only [HainesCounts.total6] at htot
  simp [hainesCats, ← h0, ← h2, ← h3, ← h4, ← h5, ← h6]
  omega

theorem compute_row_ok {dm : List (Int × Int × Int)}
    {ev : List (Int × Int × Int × Int × Int)} {month day : Nat}
    {r : FireSummaryRow} (h : compute_row dm ev month day = .ok r) :
    r.month = month ∧ r.day = day ∧
    r.num_samples =
      (dm.filter (fun t => window_pred month day t.1 t.2.1)).length ∧
    ∃ (t : Nat) (chi cmi clo : HainesCounts),
      count_haines (ev.filter (fun t => window_pred month day t.1 t.2.1)) =
        .ok (t, chi, cmi, clo) ∧
      r.haines_high_pcts = chi.freqs t ∧
      r.haines_mid_pcts = cmi.freqs t ∧
      r.haines_low_pcts = clo.freqs t := by
  simp only [compute_row] at h
  split at h
  · cases h
  · rename_i hne
    cases hch : count_haines
        (ev.filter (fun t => window_pred month day t.1 t.2.1)) with
    | error e => rw [hch] at h; simp at h
    | ok q =>
      obtain ⟨t, chi, cmi, clo⟩ := q
      rw [hch] at h
      dsimp only at h
      injection h with h
      subst h
      refine ⟨rfl, rfl, ?_, t, chi, cmi, clo, rfl, rfl, rfl, rfl⟩
      exact length_filterMap_if dm _ _

theorem summary_loop_map {α : Type} {dm : List (Int × Int × Int)}
    {ev : List (Int × Int × Int × Int × Int)} {days : List (Nat × Nat)}
    {rows : List FireSummaryRow} (h : summary_loop dm ev days = .ok rows)
    (f : FireSummaryRow → α) (g : Nat → Nat → α)
    (hfg : ∀ m d r, compute_row dm ev m d = .ok r → f r = g m d) :
    rows.map f = days.map (fun md => g md.1 md.2) := by
  induction days generalizing rows with
  | nil =>
    simp only [summary_loop] at h
    injection h with h
    subst h
    rfl
  | cons md rest ih =>
    simp only [summary_loop] at h
    cases hcr : compute_row dm ev md.1 md.2 with
    | error e => rw [hcr] at h; simp at h
    | ok r =>
      rw [hcr] at h
      dsimp only at h
      cases hsl : summary_loop dm ev rest with
      | error e => rw [hsl] at h; simp at h
      | ok rs =>
        rw [hsl] at h
        dsimp only at h
        injection h with h
        subst h
        simp only [List.map_cons]
        rw [hfg md.1 md.2 r hcr, ih hsl]

theorem summary_loop_all_ok {dm : List (Int × Int × Int)}
    {ev : List (Int × Int × Int × Int × Int)} {days : List (Nat × Nat)}
    {rows : List FireSummaryRow} (h : summary_loop dm ev days = .ok rows) :
    ∀ md ∈ days, ∃ r, compute_row dm ev md.1 md.2 = .ok r := by
  induction days generalizing rows with
  | nil => intro md hmd; cases hmd
  | cons md0 rest ih =>
    simp only [summary_loop] at h
    cases hcr : compute_row dm ev md0.1 md0.2 with
    | error e => rw [hcr] at h; simp at h
    | ok r =>
      rw [hcr] at h
      dsimp only at h
      cases hsl : summary_loop dm ev rest with
      | error e => rw [hsl] at h; simp at h
      | ok rs =>
        intro md hmd
        rcases List.mem_cons.mp hmd with rfl | hmem
        · exact ⟨r, hcr⟩
        · exact ih hsl md hmem

theorem calc_fire_summary_ok {tbl : List FireRow}
    {rows : List FireSummaryRow} (h : calc_fire_summary tbl = .ok rows) :
    summary_loop (daily_max_hdw tbl) (evening_haines tbl) allSummaryDays =
      .ok rows := by
  simp only [calc_fire_summary] at h
  split at h
  · cases h
  · exact h

set_option maxRecDepth 10000 in
/-- C3 (amended): whenever `calc_fire_summary` succeeds (which requires
at least one daily-max-HDW sample in every 15-day window, not merely one
fire row), it returns exactly 365 rows — one per (month, day) of a
non-leap year, with no February 29 — each row carrying its sample count,
the number of daily-max-HDW samples in its 15-day window. -/
theorem c3_fire_summary_365_rows (tbl : List FireRow)
    (h : (calc_fire_summary tbl).isOk = true) :
    (calc_fire_summary tbl).map List.length = .ok 365 ∧
    (calc_fire_summary tbl).map (List.map (fun r => (r.month, r.day))) =
      .ok allSummaryDays ∧
    (2, 29) ∉ allSummaryDays ∧
    (calc_fire_summary tbl).map (List.map (fun r => r.num_samples)) =
      .ok (allSummaryDays.map (fun md =>
        ((daily_max_hdw tbl).filter
          (fun t => window_pred md.1 md.2 t.1 t.2.1)).length)) := by
  cases hc : calc_fire_summary tbl with
  | error e => rw [hc] at h; cases h
  | ok rows =>
    have hsl := calc_fire_summary_ok hc
    have hdays : rows.map (fun r => (r.month, r.day)) = allSummaryDays := by
      have := summary_loop_map hsl (fun r => (r.month, r.day))
        (fun m d => (m, d)) (by
          intro m d r hcr
          obtain ⟨h1, h2, -⟩ := compute_row_ok hcr
          simp [h1, h2])
      simpa using this
    refine ⟨?_, ?_, by decide, ?_⟩
    · have hlen : rows.length = 365 := by
        have := congrArg List.length hdays
        simpa using this
      simp [Except.map, hlen]
    · simp [Except.map, hdays]
    · have := summary_loop_map hsl (fun r => r.num_samples)
        (fun m d => ((daily_max_hdw tbl).filter
          (fun t => window_pred m d t.1 t.2.1)).length) (by
          intro m d r hcr
          exact (compute_row_ok hcr).2.2.1)
      simp [Except.map, this]

/-- C3 (counterexample): a fire table with one row — "at least one fire
row" as the claim requires — on which the query does not return 366 rows
(or any row sequence): it fails with "Not enough data", because the
15-day windows away from that row are empty. -/
theorem c3_counterexample :
    [add_fire ⟨2000, 6, 15, 0, 0, 0⟩ (0, 0, 0) 0] ≠ ([] : List FireRow) ∧
    calc_fire_summary [add_fire ⟨2000, 6, 15, 0, 0, 0⟩ (0, 0, 0) 0] =
      .error "Not enough data" := by
  exact ⟨by decide, by rfl⟩

/-- Fire table for the C3 witness: one hour-0 row every 14 days, so every
15-day window holds at least one daily-max sample. -/
def c3Table : List FireRow :=
  ([(1, 1), (1, 15), (1, 29), (2, 12), (2, 26), (3, 12), (3, 26), (4, 9),
    (4, 23), (5, 7), (5, 21), (6, 4), (6, 18), (7, 2), (7, 16), (7, 30),
    (8, 13), (8, 27), (9, 10), (9, 24), (10, 8), (10, 22), (11, 5),
    (11, 19), (12, 3), (12, 17), (12, 31)] : List (Nat × Nat)).map
    (fun md => add_fire ⟨2000, md.1, md.2, 0, 0, 0⟩ (0, 0, 0) 0)

set_option maxRecDepth 100000 in
set_option maxHeartbeats 4000000 in
/-- Witness for C3 on `c3Table`: the summary succeeds and yields
exactly 365 rows. -/
theorem c3_fire_summary_365_rows_witness :
    (calc_fire_summary c3Table).isOk = true ∧
    (calc_fire_summary c3Table).map List.length = .ok 365 := by
  have h : (calc_fire_summary c3Table).isOk = true := by rfl
  exact ⟨h, (c3_fire_summary_365_rows c3Table h).1⟩

/-- C2 (amended): the Haines relative frequencies for each summary row
are computed only from fire rows whose stored `hour` column equals 0
(the UTC hour of valid_time — not local hour 16) and lying in the
15-day centred window; each such row lands in exactly one of the
categories {0,2,3,4,5,6} — together the six category counts add up to
the window total — and each frequency is the category count divided by
that total. -/
theorem c2_haines_freqs_hour0 (tbl : List FireRow)
    (h : (calc_fire_summary tbl).isOk = true) :
    ((calc_fire_summary tbl).map (List.map (fun r => r.haines_high_pcts)) =
      .ok (allSummaryDays.map (fun md =>
        freqs_from ((evening_window tbl md.1 md.2).map (fun x => x.2.2.1))
          (evening_window tbl md.1 md.2).length))) ∧
    ((calc_fire_summary tbl).map (List.map (fun r => r.haines_mid_pcts)) =
      .ok (allSummaryDays.map (fun md =>
        freqs_from ((evening_window tbl md.1 md.2).map (fun x => x.2.2.2.1))
          (evening_window tbl md.1 md.2).length))) ∧
    ((calc_fire_summary tbl).map (List.map (fun r => r.haines_low_pcts)) =
      .ok (allSummaryDays.map (fun md =>
        freqs_from ((evening_window tbl md.1 md.2).map (fun x => x.2.2.2.2))
          (evening_window tbl md.1 md.2).length))) ∧
    (∀ md ∈ allSummaryDays,
      (hainesCats.map (countCat
        ((evening_window tbl md.1 md.2).map (fun x => x.2.2.1)))).sum =
        (evening_window tbl md.1 md.2).length ∧
      (hainesCats.map (countCat
        ((evening_window tbl md.1 md.2).map (fun x => x.2.2.2.1)))).sum =
        (evening_window tbl md.1 md.2).length ∧
      (hainesCats.map (countCat
        ((evening_window tbl md.1 md.2).map (fun x => x.2.2.2.2)))).sum =
        (evening_window tbl md.1 md.2).length) := by
  cases hc : calc_fire_summary tbl with
  | error e => rw [hc] at h; cases h
  | ok rows =>
    have hsl := calc_fire_summary_ok hc
    refine ⟨?_, ?_, ?_, ?_⟩
    · have := summary_loop_map hsl (fun r => r.haines_high_pcts)
        (fun m d => freqs_from
          ((evening_window tbl m d).map (fun x => x.2.2.1))
          (evening_window tbl m d).length) (by
          intro m d r hcr
          obtain ⟨-, -, -, t, chi, cmi, clo, hch, hhi, -, -⟩ :=
            compute_row_ok hcr
          obtain ⟨ht, -, -, -, hcchi, -, -⟩ := count_haines_ok hch
          dsimp only
          rw [hhi, freqs_eq_freqs_from hcchi, ht]
          rfl)
      simp [Except.map, this]
    · have := summary_loop_map hsl (fun r => r.haines_mid_pcts)
        (fun m d => freqs_from
          ((evening_window tbl m d).map (fun x => x.2.2.2.1))
          (evening_window tbl m d).length) (by
          intro m d r hcr
          obtain ⟨-, -, -, t, chi, cmi, clo, hch, -, hmi, -⟩ :=
            compute_row_ok hcr
          obtain ⟨ht, -, -, -, -, hccmi, -⟩ := count_haines_ok hch
          dsimp only
          rw [hmi, freqs_eq_freqs_from hccmi, ht]
          rfl)
      simp [Except.map, this]
    · have := summary_loop_map hsl (fun r => r.haines_low_pcts)
        (fun m d => freqs_from
          ((evening_window tbl m d).map (fun x => x.2.2.2.2))
          (evening_window tbl m d).length) (by
          intro m d r hcr
          obtain ⟨-, -, -, t, chi, cmi, clo, hch, -, -, hlo⟩ :=
            compute_row_ok hcr
          obtain ⟨ht, -, -, -, -, -, hcclo⟩ := count_haines_ok hch
          dsimp only
          rw [hlo, freqs_eq_freqs_from hcclo, ht]
          rfl)
      simp [Except.map, this]
    · intro md hmd
      obtain ⟨r, hcr⟩ := summary_loop_all_ok hsl md hmd
      obtain ⟨-, -, -, t, chi, cmi, clo, hch, -, -, -⟩ := compute_row_ok hcr
      obtain ⟨-, hhit, hmit, hlot, hcchi, hccmi, hcclo⟩ := count_haines_ok hch
      exact ⟨sum_countCat_of_total6 hcchi hhit,
        sum_countCat_of_total6 hccmi hmit,
        sum_countCat_of_total6 hcclo hlot⟩

/-- Modelled from the claim under test (C2), for comparison with the
code: the evening selection the claim describes, rows with hour 16 (the
stored hour is what the row carries for its valid_time; see C1). -/
def evening_haines_hour16 (tbl : List FireRow) :
    List (Int × Int × Int × Int × Int) :=
  (tbl.filter (fun r => r.hour == 16)).map
    (fun r => ((r.month : Int), (r.day : Int),
      r.haines_high, r.haines_mid, r.haines_low))

/-- Modelled from the claim under test (C2): the hour-16 rows in the
15-day window centred on (month, day). -/
def spec_evening_window16 (tbl : List FireRow) (m d : Nat) :
    List (Int × Int × Int × Int × Int) :=
  (evening_haines_hour16 tbl).filter (fun t => window_pred m d t.1 t.2.1)

/-- Modelled from the claim under test (C2): high-Haines relative
frequencies over the hour-16 rows of the window. -/
def spec_haines_high_freqs16 (tbl : List FireRow) (m d : Nat) : List ℚ :=
  freqs_from ((spec_evening_window16 tbl m d).map (fun x => x.2.2.1))
    (spec_evening_window16 tbl m d).length

/-- Fire table for the C2 counterexample: hour-0 rows with Haines 0
every 14 days, plus one hour-16 row on January 1 with Haines 6. -/
def c2Table : List FireRow :=
  ([(1, 1), (1, 15), (1, 29), (2, 12), (2, 26), (3, 12), (3, 26), (4, 9),
    (4, 23), (5, 7), (5, 21), (6, 4), (6, 18), (7, 2), (7, 16), (7, 30),
    (8, 13), (8, 27), (9, 10), (9, 24), (10, 8), (10, 22), (11, 5),
    (11, 19), (12, 3), (12, 17), (12, 31)] : List (Nat × Nat)).map
    (fun md => add_fire ⟨2000, md.1, md.2, 0, 0, 0⟩ (0, 0, 0) 0) ++
  [add_fire ⟨2000, 1, 1, 16, 0, 0⟩ (6, 6, 6) 0]

set_option maxRecDepth 100000 in
set_option maxHeartbeats 4000000 in
set_option maxRecDepth 100000 in
set_option maxHeartbeats 4000000 in
/-- C2 (counterexample): on `c2Table` the code computes the January 1
high-Haines frequencies from the two hour-0 window rows (both category
0: counts (2,0,0,0,0,0) over total 2, i.e. [1,0,0,0,0,0]), while the
frequencies computed from the hour-16 rows as the claim states would be
those of the single Haines-6 row ([0,0,0,0,0,1]). -/
theorem c2_counterexample :
    ((calc_fire_summary c2Table).toOption.bind List.head?).map
      (fun r => r.haines_high_pcts) =
      some (HainesCounts.freqs ⟨2, 0, 0, 0, 0, 0⟩ 2) ∧
    spec_haines_high_freqs16 c2Table 1 1 = freqs_from [6] 1 ∧
    HainesCounts.freqs ⟨2, 0, 0, 0, 0, 0⟩ 2 ≠ freqs_from [6] 1 := by
  refine ⟨by rfl, by rfl, ?_⟩
  simp only [HainesCounts.freqs, freqs_from, hainesCats, countCat,
    List.map_cons, List.map_nil]
  intro h
  have h0 := congrArg (fun l => l.headD 0) h
  norm_num at h0

set_option maxRecDepth 100000 in
set_option maxHeartbeats 4000000 in
/-- Witness for C2 on `c2Table`: the summary succeeds and the
high-Haines frequencies equal the hour-0 windowed frequencies. -/
theorem c2_haines_freqs_hour0_witness :
    (calc_fire_summary c2Table).isOk = true ∧
    ((calc_fire_summary c2Table).map
        (List.map (fun r => r.haines_high_pcts)) =
      .ok (allSummaryDays.map (fun md =>
        freqs_from ((evening_window c2Table md.1 md.2).map
          (fun x => x.2.2.1))
          (evening_window c2Table md.1 md.2).length))) := by
  have h : (calc_fire_summary c2Table).isOk = true := by rfl
  exact ⟨h, (c2_haines_freqs_hour0 c2Table h).1⟩

/-! ## Climatology pipeline threads (src/bin/bufcli/builder.rs)

Each stage is a loop over channel messages; one loop iteration is
modelled as a function from the incoming message to the lists of
messages sent on each outgoing channel. -/

/-- Modelled from the spec: `Model` is the closed enum {GFS, NAM, NAM4KM}
declared in the external `bufkit_data` crate. -/
inductive Model where
  | GFS
  | NAM
  | NAM4KM
deriving DecidableEq, Repr

/-- Modelled from the spec: `Model::hours_between_runs` — 6 for GFS and
NAM, 1 for NAM4KM (declared in the external `bufkit_data` crate). -/
def Model.hours_between_runs : Model → Int
  | .GFS => 6
  | .NAM => 6
  | .NAM4KM => 1

/-- A parsed forecast analysis as the pipeline reads it from a sounding:
optional lead time, optional valid time, optional station location and
elevation (`f64` coordinates carried through unchanged, modelled as
exact rationals). -/
structure Analysis where
  lead_time : Option Int
  valid_time : Option DateTime
  location : Option (ℚ × ℚ)
  elevation : Option ℚ
deriving DecidableEq, Repr

/-- `ErrorMessage` from builder.rs (the error payload is kept as text). -/
inductive ErrorMessage where
  | Critical (msg : String)
  | DataError (site : String) (model : Model) (valid_time : DateTime)
      (msg : String)
deriving DecidableEq, Repr

/-- `StatsMessage` from builder.rs. -/
inductive StatsMessage where
  | Fire (site : String) (model : Model) (valid_time : DateTime)
      (hns_low hns_mid hns_high : Int) (hdw : Int)
  | Location (site : String) (model : Model) (valid_time : DateTime)
      (lat lon : ℚ) (elev_m : ℚ)
deriving DecidableEq, Repr

/-- One iteration of `start_parser_thread` (builder.rs lines 291-352) on
a `Parse{num, site, model, init_time, data}` message.  `BufkitData::new`
(the external parser) is a parameter.  Returns the messages sent to the
fire-requests channel, to the parse-errors channel, and to the general
error channel, in that order.  On parse failure a `DataError` goes to
the parse-errors channel; analyses are consumed with `take_while
(lead_time < hours_between_runs)`; an analysis without a valid time
sends a `DataError` to the general error channel only. -/
def parser_step (parse : String → Except String (List Analysis))
    (num : Nat) (site : String) (model : Model) (init_time : DateTime)
    (data : String) :
    List (Nat × String × Model × DateTime × Analysis) ×
      List ErrorMessage × List ErrorMessage :=
  match parse data with
  | .error err => ([], [.DataError site model init_time err], [])
  | .ok anals =>
    let taken := anals.takeWhile (fun anal =>
      (anal.lead_time.map
        (fun lt => decide (lt < model.hours_between_runs))).getD false)
    (taken.filterMap (fun anal =>
        anal.valid_time.map (fun vt => (num, site, model, vt, anal))),
     [],
     taken.filterMap (fun anal =>
        if anal.valid_time.isNone then
          some (.DataError site model init_time "No valid time.")
        else none))

/-- The archive removals performed by `start_parse_err_handler`
(builder.rs lines 484-507): one `arch.remove(site.id, model, init_time)`
per `DataError` received on the parse-errors channel (the message is
then forwarded unchanged). -/
def parse_err_removals (msgs : List ErrorMessage) :
    List (String × Model × DateTime) :=
  msgs.filterMap (fun m =>
    match m with
    | .DataError site model init_time _ => some (site, model, init_time)
    | _ => none)

/-- C5: in the climatology pipeline, whenever parsing a loaded file
fails, a `DataError` for that (site, model, init_time) is emitted on the
parse-errors channel and the parse-error handler removes exactly that
file from the archive; when parsing succeeds, nothing is sent on the
parse-errors channel and no file is removed. -/
theorem c5_parse_failure_removes_file
    (parse : String → Except String (List Analysis)) (num : Nat)
    (site : String) (model : Model) (init_time : DateTime) (data : String) :
    (∀ e, parse data = .error e →
      (parser_step parse num site model init_time data).2.1 =
        [.DataError site model init_time e] ∧
      parse_err_removals
          (parser_step parse num site model init_time data).2.1 =
        [(site, model, init_time)]) ∧
    (∀ anals, parse data = .ok anals →
      (parser_step parse num site model init_time data).2.1 = [] ∧
      parse_err_removals
          (parser_step parse num site model init_time data).2.1 = []) := by
  constructor
  · intro e he
    simp [parser_step, he, parse_err_removals]
  · intro anals ha
    simp [parser_step, ha, parse_err_removals]

/-- Witness for C5: a concrete parser failing on "bad" and succeeding on
anything else; the failing file is removed, the good one is not. -/
theorem c5_parse_failure_removes_file_witness :
    (parse_err_removals
        (parser_step
          (fun s => if s = "bad" then .error "oops" else .ok [])
          1 "KMSO" .GFS ⟨2020, 1, 1, 0, 0, 0⟩ "bad").2.1 =
      [("KMSO", Model.GFS, ⟨2020, 1, 1, 0, 0, 0⟩)]) ∧
    (parse_err_removals
        (parser_step
          (fun s => if s = "bad" then .error "oops" else .ok [])
          1 "KMSO" .GFS ⟨2020, 1, 1, 0, 0, 0⟩ "good").2.1 = []) := by
  constructor
  · exact ((c5_parse_failure_removes_file
      (fun s => if s = "bad" then .error "oops" else .ok [])
      1 "KMSO" .GFS ⟨2020, 1, 1, 0, 0, 0⟩ "bad").1 "oops" rfl).2
  · exact ((c5_parse_failure_removes_file
      (fun s => if s = "bad" then .error "oops" else .ok [])
      1 "KMSO" .GFS ⟨2020, 1, 1, 0, 0, 0⟩ "good").2 [] rfl).2

/-- One iteration of `start_location_stats_thread` (builder.rs lines
422-482) on a `Location{num, site, model, valid_time, anal}` message.
Returns the messages sent to the climo-writer channel, to the error
channel, and the `Completed{num}` notifications, in that order.  Note
the guard `lead_time.map(|lt| lt == 0).unwrap_or(true)`: a missing lead
time is treated like 0. -/
def location_stats_step (num : Nat) (site : String) (model : Model)
    (valid_time : DateTime) (anal : Analysis) :
    List StatsMessage × List ErrorMessage × List Nat :=
  if (anal.lead_time.map (fun lt => lt == 0)).getD true then
    match anal.elevation, anal.location with
    | some elev_m, some (lat, lon) =>
      ([.Location site model valid_time lat lon elev_m], [], [num])
    | _, _ =>
      ([], [.DataError site model valid_time "Missing location information."],
        [num])
  else ([], [], [num])

/-- C7 (amended): a location record is emitted to the writer only for
analyses whose lead_time is 0 or absent (the code treats a missing lead
time as 0); for every analysis with a present non-zero lead_time no
location record is produced. -/
theorem c7_location_only_lead_time_zero (num : Nat) (site : String)
    (model : Model) (valid_time : DateTime) (anal : Analysis) :
    ((location_stats_step num site model valid_time anal).1 ≠ [] →
      anal.lead_time = some 0 ∨ anal.lead_time = none) ∧
    (∀ lt : Int, anal.lead_time = some lt → lt ≠ 0 →
      (location_stats_step num site model valid_time anal).1 = []) := by
  constructor
  · intro hne
    cases hlt : anal.lead_time with
    | none => exact Or.inr rfl
    | some lt =>
      by_cases h0 : lt = 0
      · exact Or.inl (by rw [h0])
      · exfalso
        apply hne
        simp [location_stats_step, hlt, h0]
  · intro lt hlt h0
    simp [location_stats_step, hlt, h0]

/-- C7 (counterexample): an analysis with no lead time at all (hence not
one "whose lead_time equals 0") and full location data produces a
location record. -/
theorem c7_counterexample :
    (location_stats_step 0 "KMSO" .GFS ⟨2020, 1, 1, 0, 0, 0⟩
      { lead_time := none, valid_time := none,
        location := some (1, 2), elevation := some 3 }).1 ≠ [] ∧
    ({ lead_time := none, valid_time := none,
       location := some (1, 2), elevation := some 3 } : Analysis).lead_time ≠
      some 0 := by
  constructor
  · simp [location_stats_step]
  · simp

/-- Witness for C7 at a present non-zero lead time: no location record. -/
theorem c7_location_only_lead_time_zero_witness :
    (location_stats_step 0 "KMSO" .GFS ⟨2020, 1, 1, 0, 0, 0⟩
      { lead_time := some 5, valid_time := none,
        location := some (1, 2), elevation := some 3 }).1 = [] :=
  (c7_location_only_lead_time_zero 0 "KMSO" .GFS ⟨2020, 1, 1, 0, 0, 0⟩
    { lead_time := some 5, valid_time := none,
      location := some (1, 2), elevation := some 3 }).2 5 rfl (by decide)


/-! ## Archive clean (src/bin/bkam/fix.rs)

`fix` drains the `clean_index` progress channel to completion (its `for`
loop ends only when the channel closes, i.e. when Pass A is done) and
only then calls `clean_data`.  The two passes themselves live in the
external `bufkit_data` crate and are modelled from the spec. -/

/-- Archive state seen by `clean`: the `files` index rows — key
(station, model, init_time) with the referenced blob hash — and the blob
files present in the data directory. -/
structure ArchiveState where
  index : List ((Nat × Model × DateTime) × String)
  blobs : List String
deriving DecidableEq, Repr

/-- Modelled from the spec: `Archive::clean_index` (Pass A; declared in
the external `bufkit_data` crate): delete every index row whose
referenced blob is missing from the store. -/
def clean_index (s : ArchiveState) : ArchiveState :=
  { s with index := s.index.filter (fun e => decide (e.2 ∈ s.blobs)) }

/-- Modelled from the spec: `Archive::clean_data` (Pass B; declared in
the external `bufkit_data` crate): delete every blob file referenced by
no index row. -/
def clean_data (s : ArchiveState) : ArchiveState :=
  { s with blobs := s.blobs.filter (fun h => s.index.any (fun e => e.2 == h)) }

/-- Model of `bkam fix` (src/bin/bkam/fix.rs lines 44-75): Pass A runs
and is drained to completion, then Pass B runs on the resulting state. -/
def fix (s : ArchiveState) : ArchiveState := clean_data (clean_index s)

/-- C8: `fix` is exactly Pass B applied after Pass A has completed, and
as a consequence: every surviving index row references a surviving blob,
every surviving blob is referenced, and every blob unreferenced after
Pass A's row deletions — including blobs orphaned by those deletions —
is reclaimed within the same clean. -/
theorem c8_clean_pass_b_after_pass_a (s : ArchiveState) :
    fix s = clean_data (clean_index s) ∧
    (∀ e ∈ (fix s).index, e.2 ∈ (fix s).blobs) ∧
    (∀ h ∈ (fix s).blobs, ∃ e ∈ (fix s).index, e.2 = h) ∧
    (∀ h ∈ s.blobs,
      (¬∃ e ∈ (clean_index s).index, e.2 = h) → h ∉ (fix s).blobs) := by
  refine ⟨rfl, ?_, ?_, ?_⟩
  · intro e he
    simp only [fix, clean_data, clean_index, List.mem_filter,
      decide_eq_true_eq] at he ⊢
    obtain ⟨⟨hmem, hblob⟩, -⟩ := And.intro he trivial
    refine ⟨hblob, ?_⟩
    rw [List.any_eq_true]
    exact ⟨e, by simp [List.mem_filter, hmem, hblob], by simp⟩
  · intro h hh
    simp only [fix, clean_data, clean_index, List.mem_filter] at hh
    obtain ⟨hblob, hany⟩ := hh
    rw [List.any_eq_true] at hany
    obtain ⟨e, hemem, heq⟩ := hany
    exact ⟨e, by simpa [fix, clean_data, clean_index] using hemem,
      by simpa using heq⟩
  · intro h hblob hnoref hmem
    simp only [fix, clean_data, clean_index, List.mem_filter] at hmem
    obtain ⟨-, hany⟩ := hmem
    rw [List.any_eq_true] at hany
    obtain ⟨e, hemem, heq⟩ := hany
    exact hnoref ⟨e, by simpa [clean_index] using hemem, by simpa using heq⟩

/-- Witness for C8 on a concrete archive: row `a` references a missing
blob and is deleted by Pass A; blob `c` is unreferenced and blob `b`
becomes the only survivor. -/
theorem c8_clean_pass_b_after_pass_a_witness :
    fix { index := [((1, .GFS, ⟨2020, 1, 1, 0, 0, 0⟩), "a"),
                    ((2, .GFS, ⟨2020, 1, 1, 0, 0, 0⟩), "b")],
          blobs := ["b", "c"] } =
      { index := [((2, .GFS, ⟨2020, 1, 1, 0, 0, 0⟩), "b")],
        blobs := ["b"] } ∧
    "c" ∉ (fix { index := [((1, .GFS, ⟨2020, 1, 1, 0, 0, 0⟩), "a"),
                           ((2, .GFS, ⟨2020, 1, 1, 0, 0, 0⟩), "b")],
                 blobs := ["b", "c"] }).blobs := by
  refine ⟨by decide, ?_⟩
  exact (c8_clean_pass_b_after_pass_a _).2.2.2 "c" (by decide) (by decide)


/-! ## Download pipeline (src/bin/bufdn)

`generator.rs` (request generation and filtering), `sources.rs` (the
IowaState source adapter), `missing_url.rs` (the 404 store) and the
reporter loop of `main.rs`.  The external `Archive` lookups are
parameters (`file_exists`, the site/model enumeration and
`Model::all_runs`). -/

/-- `str::to_lowercase` on the ASCII site identifiers used here. -/
def lowerString (s : String) : String := ⟨s.data.map Char.toLower⟩

/-- `format!("{:02}", n)`: zero-pad to two digits. -/
def pad2 (n : Nat) : String := if n < 10 then "0" ++ toString n else toString n

/-- `ReqInfo` as defined in src/bin/bufdn/generator.rs (this revision
carries the site id and an optional station number and init time). -/
structure ReqInfo where
  site_id : String
  site : Option Nat
  model : Model
  init_time : Option DateTime
  url : String
deriving DecidableEq, Repr

/-- `IowaState::HOST_URL`. -/
def HOST_URL : String := "http://mtarchive.geol.iastate.edu/"

/-- `model.to_string().to_lowercase()` (strum display names). -/
def Model.lower_name : Model → String
  | .GFS => "gfs"
  | .NAM => "nam"
  | .NAM4KM => "nam4km"

/-- Model of `IowaState::build_url` (sources.rs lines 49-75). -/
def build_url (site : String) (model : Model) (init_time : DateTime) :
    String :=
  let site := lowerString site
  let year := init_time.year
  let month := init_time.month
  let day := init_time.day
  let hour := init_time.hour
  let remote_model : String :=
    match model, hour with
    | .GFS, _ => "gfs3"
    | .NAM, 6 => "namm"
    | .NAM, 18 => "namm"
    | .NAM, _ => "nam"
    | .NAM4KM, _ => "nam4km"
  let remote_file_name := remote_model ++ "_" ++ site ++ ".buf"
  HOST_URL ++ toString year ++ "/" ++ pad2 month ++ "/" ++ pad2 day ++
    "/bufkit/" ++ pad2 hour ++ "/" ++ model.lower_name ++ "/" ++
    remote_file_name

/-- Model of
`IowaState::fix_known_issues_with_site_mismatch_in_url_and_in_the_file`
(sources.rs lines 77-95). -/
def fix_known_issues_with_site_mismatch_in_url_and_in_the_file
    (site_id : String) (model : Model) (init_time : DateTime) : String :=
  if site_id = "KLDN" ∧ model ≠ .GFS ∧
      dtLe ⟨2020, 5, 1, 0, 0, 0⟩ init_time then "KDLN"
  else if site_id = "KLDN" ∧ model = .GFS ∧
      dtLe ⟨2021, 3, 22, 18, 0, 0⟩ init_time then "KDLN"
  else site_id

/-- Model of `IowaState::invalid_combination` (sources.rs lines
97-164). -/
def invalid_combination (site : String) (model : Model)
    (init_time : DateTime) : Bool :=
  let site := lowerString site
  let model_site_mismatch : Bool :=
    if site = "bam" ∨ site = "c17" ∨ site = "lrr" ∨ site = "s06" ∨
        site = "ssy" ∨ site = "xkza" ∨ site = "xxpn" then
      decide (model = .NAM ∨ model = .NAM4KM)
    else if site = "bon" ∨ site = "hmm" ∨ site = "mrp" ∨ site = "smb" ∨
        site = "win" then
      decide (model = .GFS)
    else if site = "wntr" then decide (model = .GFS ∨ model = .NAM4KM)
    else if site = "kfca" then decide (model = .NAM ∨ model = .NAM4KM)
    else if site = "paeg" ∨ site = "pabt" ∨ site = "pafa" ∨
        site = "pafm" ∨ site = "pamc" ∨ site = "pfyu" then
      decide (model = .NAM4KM)
    else false
  let model_init_time_mismatch : Bool :=
    match model with
    | .NAM4KM => decide (dtLt init_time ⟨2013, 3, 25, 0, 0, 0⟩)
    | _ => decide (dtLt init_time ⟨2011, 1, 1, 0, 0, 0⟩)
  let expired_sites : Bool :=
    if site = "lrr" ∧ model = .GFS then
      decide (dtLe ⟨2018, 12, 5, 0, 0, 0⟩ init_time)
    else if site = "c17" ∧ model = .GFS then
      decide (dtLe ⟨2018, 12, 5, 0, 0, 0⟩ init_time)
    else if site = "sta" ∧ model = .GFS then
      decide (dtLe init_time ⟨2018, 12, 4, 12, 0, 0⟩)
    else if site = "xxpn" ∧ model = .GFS then
      decide (dtLe init_time ⟨2018, 12, 4, 12, 0, 0⟩)
    else if site = "wev" ∧ model = .GFS then
      decide (dtLe init_time ⟨2018, 12, 4, 12, 0, 0⟩)
    else if site = "xkza" ∧ model = .GFS then
      decide (dtLe init_time ⟨2018, 12, 4, 12, 0, 0⟩)
    else if site = "mpi" ∧ model = .GFS then
      decide (dtLe init_time ⟨2018, 12, 4, 12, 0, 0⟩)
    else if site = "kmpi" ∧ model = .GFS then
      decide (dtLe init_time ⟨2018, 12, 4, 12, 0, 0⟩ ∨
        dtLe ⟨2021, 3, 22, 18, 0, 0⟩ init_time)
    else if (site = "pafm" ∨ site = "pfyu" ∨ site = "pabt" ∨
        site = "wev" ∨ site = "wntr" ∨ site = "smb" ∨ site = "hmm" ∨
        site = "sta" ∨ site = "mpi" ∨ site = "wja" ∨ site = "mrp" ∨
        site = "pamc" ∨ site = "pafa" ∨ site = "paeg" ∨ site = "cype" ∨
        site = "cyyc" ∨ site = "cwlb") ∧ model = .NAM then
      decide (dtLt init_time ⟨2012, 2, 17, 12, 0, 0⟩)
    else if (site = "ssy" ∨ site = "cwlb" ∨ site = "bam" ∨
        site = "cyyc" ∨ site = "paeg" ∨ site = "cype" ∨ site = "pfyu" ∨
        site = "pafa" ∨ site = "pamc" ∨ site = "pabt" ∨ site = "wja" ∨
        site = "pafm") ∧ model = .GFS then
      decide (dtLt init_time ⟨2012, 2, 16, 18, 0, 0⟩)
    else false
  model_site_mismatch || model_init_time_mismatch || expired_sites

/-- Model of `IowaState::build_req_info` (sources.rs lines 19-43): the
single source adapter used by the generator. -/
def build_req_info (site_id : String) (stn_num : Option Nat)
    (model : Model) (init_time : DateTime) : Option ReqInfo :=
  if invalid_combination site_id model init_time then none
  else
    let site_id := fix_known_issues_with_site_mismatch_in_url_and_in_the_file
      site_id model init_time
    let url := build_url site_id model init_time
    some { site_id := site_id, site := stn_num, model := model,
           init_time := some init_time, url := url }

/-- A download-list entry `(site_id, stn_num, model, init_time)`. -/
abbrev DLEntry := String × Option Nat × Model × DateTime

/-- The init-time of a download-list entry. -/
def dlKey (e : DLEntry) : DateTime := e.2.2.2

/-- The comparison used by
`to_ret.sort_by_key(|val| std::cmp::Reverse(val.3))`: newer (or equal)
init-times sort first. -/
def dlGE (a b : DLEntry) : Prop := dtLe (dlKey b) (dlKey a)

instance : DecidableRel dlGE := fun a b => by unfold dlGE; infer_instance

instance : IsTotal DLEntry dlGE :=
  ⟨fun a b => dtLe_total (dlKey b) (dlKey a)⟩

instance : IsTrans DLEntry dlGE :=
  ⟨fun _ _ _ hab hbc => dtLe_trans hbc hab⟩

/-- Model of `build_download_list` (generator.rs lines 195-238).
`site_model` is the enumerated (site_id, station, model) list (from the
provided sites or the auto-download list, both read from the external
archive); `all_runs` is `Model::all_runs` from the external
`bufkit_data` crate.  The flattened list is sorted by decreasing
init_time (`sort_by_key(Reverse(val.3))`, modelled by a stable insertion
sort under `dlGE`). -/
def build_download_list
    (site_model : List (String × Option Nat × Model))
    (all_runs : Model → DateTime → DateTime → List DateTime)
    (start end_ : DateTime) : List DLEntry :=
  let to_ret : List DLEntry := site_model.flatMap (fun im =>
    (all_runs im.2.2 end_
        (subHours im.2.2.hours_between_runs.toNat start)).map
      (fun vt => (im.1, im.2.1, im.2.2, vt)))
  to_ret.insertionSort dlGE

/-- The `missing` table of `404.db`: URLs with `url TEXT PRIMARY KEY`. -/
abbrev MissingUrlDb := List String

/-- Model of `MissingUrlDb::is_missing` (missing_url.rs lines 28-37):
`SELECT COUNT(*) FROM missing WHERE url = ?1` compared with 0. -/
def is_missing (db : MissingUrlDb) (url : String) : Bool := db.contains url

/-- Model of `MissingUrlDb::add_url` (missing_url.rs lines 38-44): a
plain `INSERT INTO missing (url) VALUES (?1)` — inserting a URL already
present violates the `url` primary-key constraint and the call returns
the database error instead of succeeding. -/
def add_url (db : MissingUrlDb) (url : String) :
    Except String MissingUrlDb :=
  if url ∈ db then .error "UNIQUE constraint failed: missing.url"
  else .ok (db ++ [url])

/-- Model of the request emission in `start_generator_thread`
(generator.rs lines 163-189): filter entries already in the archive,
ask the single source (`IowaState`) for a request and keep it only when
its URL is not in the 404 store, cap at 1500.  `file_exists` stands for
`arch.file_exists` (errors are mapped to `false` by
`.ok()/unwrap_or(false)` in the source, so it is total here). -/
def generator_requests (missing_urls : MissingUrlDb)
    (file_exists : Nat → Model → DateTime → Bool)
    (download_list : List DLEntry) : List ReqInfo :=
  ((download_list.filter (fun e =>
      !((e.2.1.map (fun s => file_exists s e.2.2.1 e.2.2.2)).getD false))
    ).filterMap (fun e =>
      (build_req_info e.1 e.2.1 e.2.2.1 e.2.2.2).filter
        (fun r => !(is_missing missing_urls r.url)))).take 1500

/-- `ReqInfo` as defined in src/bin/bufdn/main.rs (the reporter's
revision: plain site, model, init_time, url). -/
structure RepReqInfo where
  site : String
  model : Model
  init_time : DateTime
  url : String
deriving DecidableEq, Repr

/-- `StepResult` from src/bin/bufdn/main.rs lines 204-218. -/
inductive StepResult where
  | Request (req : RepReqInfo)
  | BufkitFileAsString (req : RepReqInfo) (data : String)
  | Success (req : RepReqInfo)
  | URLNotFound (req : RepReqInfo)
  | OtherURLStatus (req : RepReqInfo) (code : Nat)
  | OtherDownloadError (req : RepReqInfo) (err : String)
  | ParseError (req : RepReqInfo) (msg : String)
  | ArchiveError (req : RepReqInfo) (msg : String)
  | MissingUrlDbError (req : RepReqInfo) (msg : String)
  | IntializationError (msg : String)
deriving DecidableEq, Repr

/-- One iteration of the reporter loop in `run` (main.rs lines 60-96)
with `cutoff = Utc::now() - Duration::hours(27)` computed before the
loop.  `URLNotFound` and `ParseError` record the URL only when
`init_time < cutoff` (the `?` on `add_url` propagates its error); the
other reachable variants only print.  The variants the reporter never
receives hit `unreachable!()`, modelled as an aborting error. -/
def reporter_step (cutoff : DateTime) (db : MissingUrlDb) :
    StepResult → Except String MissingUrlDb
  | .URLNotFound req =>
    if dtLt req.init_time cutoff then add_url db req.url else .ok db
  | .ParseError req _ =>
    if dtLt req.init_time cutoff then add_url db req.url else .ok db
  | .OtherURLStatus _ _ => .ok db
  | .OtherDownloadError _ _ => .ok db
  | .ArchiveError _ _ => .ok db
  | .Success _ => .ok db
  | .IntializationError _ => .ok db
  | .Request _ => .error "unreachable"
  | .BufkitFileAsString _ _ => .error "unreachable"
  | .MissingUrlDbError _ _ => .error "unreachable"

/-- The reporter loop over the received results; an error from any step
(in particular a failed `add_url`) aborts the whole run via `?`. -/
def run_reporter (cutoff : DateTime) (db : MissingUrlDb) :
    List StepResult → Except String MissingUrlDb
  | [] => .ok db
  | r :: rest =>
    match reporter_step cutoff db r with
    | .error e => .error e
    | .ok db2 => run_reporter cutoff db2 rest

theorem pairwise_filterMap_of {α β : Type} {R : α → α → Prop}
    {S : β → β → Prop} (f : α → Option β)
    (h : ∀ a b, R a b → ∀ c ∈ f a, ∀ d ∈ f b, S c d) :
    ∀ {l : List α}, l.Pairwise R → (l.filterMap f).Pairwise S := by
  intro l hl
  induction l with
  | nil => simp
  | cons a l ih =>
    rcases hl with _ | ⟨ha, hl⟩
    rw [List.filterMap_cons]
    cases hfa : f a with
    | none => exact ih hl
    | some b =>
      refine List.Pairwise.cons ?_ (ih hl)
      intro d hd
      rw [List.mem_filterMap] at hd
      obtain ⟨x, hx, hfx⟩ := hd
      exact h a x (ha x hx) b hfa d hfx

/-- If the source accepts a request, the request carries the queried
init time. -/
theorem build_req_info_init_time {site_id : String} {stn : Option Nat}
    {model : Model} {it : DateTime} {r : ReqInfo}
    (h : build_req_info site_id stn model it = some r) :
    r.init_time = some it := by
  unfold build_req_info at h
  split at h
  · cases h
  · injection h with h
    subst h
    rfl

/-- C6: for every generator run (any site/model enumeration, any
`all_runs`, any archive contents and any 404 store), the sequence of
requests emitted to the fetcher channel is ordered by decreasing
init_time (newest first), and hence so is the subsequence of any single
(site_id, model) pair. -/
theorem c6_generator_newest_first
    (site_model : List (String × Option Nat × Model))
    (all_runs : Model → DateTime → DateTime → List DateTime)
    (start end_ : DateTime) (missing_urls : MissingUrlDb)
    (file_exists : Nat → Model → DateTime → Bool) :
    List.Pairwise
      (fun p q : ReqInfo => ∀ a ∈ p.init_time, ∀ b ∈ q.init_time, dtLe b a)
      (generator_requests missing_urls file_exists
        (build_download_list site_model all_runs start end_)) ∧
    ∀ (sid : String) (m : Model),
      List.Pairwise
        (fun p q : ReqInfo =>
          ∀ a ∈ p.init_time, ∀ b ∈ q.init_time, dtLe b a)
        ((generator_requests missing_urls file_exists
            (build_download_list site_model all_runs start end_)).filter
          (fun r => r.site_id == sid && r.model == m)) := by
  have hsorted : List.Pairwise dlGE
      (build_download_list site_model all_runs start end_) := by
    unfold build_download_list
    exact List.sorted_insertionSort dlGE _
  have hfiltered := hsorted.filter (fun e =>
    !((e.2.1.map (fun s => file_exists s e.2.2.1 e.2.2.2)).getD false))
  have hmapped : List.Pairwise
      (fun p q : ReqInfo => ∀ a ∈ p.init_time, ∀ b ∈ q.init_time, dtLe b a)
      (((build_download_list site_model all_runs start end_).filter
          (fun e => !((e.2.1.map
            (fun s => file_exists s e.2.2.1 e.2.2.2)).getD false))
        ).filterMap (fun e =>
          (build_req_info e.1 e.2.1 e.2.2.1 e.2.2.2).filter
            (fun r => !(is_missing missing_urls r.url)))) := by
    refine pairwise_filterMap_of _ ?_ hfiltered
    intro e1 e2 hge r1 hr1 r2 hr2
    have h1 : build_req_info e1.1 e1.2.1 e1.2.2.1 e1.2.2.2 = some r1 :=
      Option.mem_def.mp (Option.filter_eq_some.mp hr1).1
    have h2 : build_req_info e2.1 e2.2.1 e2.2.2.1 e2.2.2.2 = some r2 :=
      Option.mem_def.mp (Option.filter_eq_some.mp hr2).1
    have hi1 := build_req_info_init_time h1
    have hi2 := build_req_info_init_time h2
    intro a ha b hb
    rw [hi1] at ha
    rw [hi2] at hb
    cases ha
    cases hb
    exact hge
  constructor
  · exact List.Pairwise.sublist (List.take_sublist _ _) hmapped
  · intro sid m
    exact (List.Pairwise.sublist (List.take_sublist _ _) hmapped).filter _

/-- C4: a `URLNotFound` consumed by the reporter records the request URL
in the 404 store if and only if its init_time is more than 27 hours
before the reporter's start time (a fresh URL that is not yet stored is
appended; a fresher 404 leaves the store unchanged and is only
printed); and the generator never emits a request whose URL is already
in the store. -/
theorem c4_url_404_recording (now : DateTime) (db : MissingUrlDb)
    (req : RepReqInfo) :
    (dtLt req.init_time (subHours 27 now) → req.url ∉ db →
      reporter_step (subHours 27 now) db (.URLNotFound req) =
        .ok (db ++ [req.url])) ∧
    (¬dtLt req.init_time (subHours 27 now) →
      reporter_step (subHours 27 now) db (.URLNotFound req) = .ok db) ∧
    (∀ (missing_urls : MissingUrlDb)
        (file_exists : Nat → Model → DateTime → Bool)
        (download_list : List DLEntry),
      ∀ r ∈ generator_requests missing_urls file_exists download_list,
        is_missing missing_urls r.url = false) := by
  refine ⟨?_, ?_, ?_⟩
  · intro hold hfresh
    simp [reporter_step, hold, add_url, hfresh]
  · intro hfresh
    simp [reporter_step, hfresh]
  · intro missing_urls file_exists download_list r hr
    unfold generator_requests at hr
    have hr2 := (List.take_sublist _ _).mem hr
    rw [List.mem_filterMap] at hr2
    obtain ⟨e, -, hfe⟩ := hr2
    obtain ⟨-, hkeep⟩ := Option.filter_eq_some.mp hfe
    simpa using hkeep

/-- C9: `add_url` is a plain INSERT into the `url` primary-key column,
so adding a URL already present returns a constraint-violation error
rather than succeeding idempotently, and in the reporter loop that
error aborts the whole run through the `?` operator. -/
theorem c9_duplicate_add_url_aborts_run (db : MissingUrlDb) (url : String)
    (h : url ∈ db) :
    add_url db url = .error "UNIQUE constraint failed: missing.url" ∧
    ∀ (cutoff : DateTime) (req : RepReqInfo) (rest : List StepResult),
      req.url = url → dtLt req.init_time cutoff →
      run_reporter cutoff db (.URLNotFound req :: rest) =
        .error "UNIQUE constraint failed: missing.url" := by
  constructor
  · simp [add_url, h]
  · intro cutoff req rest hurl hold
    simp [run_reporter, reporter_step, hold, add_url, hurl, h]

/-- Witness for C4: an old 404 is recorded, a fresh one leaves the store
unchanged, and a concretely emitted generator request has a URL outside
the 404 store. -/
theorem c4_url_404_recording_witness :
    (reporter_step (subHours 27 ⟨2024, 1, 3, 0, 0, 0⟩) []
        (.URLNotFound
          { site := "kmso", model := .GFS,
            init_time := ⟨2023, 12, 1, 0, 0, 0⟩,
            url := "http://example/old.buf" }) =
      .ok ["http://example/old.buf"]) ∧
    (reporter_step (subHours 27 ⟨2024, 1, 3, 0, 0, 0⟩) ["w"]
        (.URLNotFound
          { site := "kmso", model := .GFS,
            init_time := ⟨2024, 1, 2, 0, 0, 0⟩,
            url := "http://example/new.buf" }) =
      .ok ["w"]) ∧
    is_missing []
      "http://mtarchive.geol.iastate.edu/2024/01/01/bufkit/00/gfs/gfs3_kmso.buf" =
      false := by
  refine ⟨?_, ?_, ?_⟩
  · exact (c4_url_404_recording ⟨2024, 1, 3, 0, 0, 0⟩ []
      { site := "kmso", model := .GFS,
        init_time := ⟨2023, 12, 1, 0, 0, 0⟩,
        url := "http://example/old.buf" }).1 (by decide) (by decide)
  · exact (c4_url_404_recording ⟨2024, 1, 3, 0, 0, 0⟩ ["w"]
      { site := "kmso", model := .GFS,
        init_time := ⟨2024, 1, 2, 0, 0, 0⟩,
        url := "http://example/new.buf" }).2.1 (by decide)
  · exact (c4_url_404_recording ⟨2024, 1, 3, 0, 0, 0⟩ []
      { site := "kmso", model := .GFS,
        init_time := ⟨2024, 1, 2, 0, 0, 0⟩,
        url := "u" }).2.2 [] (fun _ _ _ => false)
      [("kmso", some 727730, .GFS, ⟨2024, 1, 1, 0, 0, 0⟩)]
      { site_id := "kmso", site := some 727730, model := .GFS,
        init_time := some ⟨2024, 1, 1, 0, 0, 0⟩,
        url := "http://mtarchive.geol.iastate.edu/2024/01/01/bufkit/00/gfs/gfs3_kmso.buf" }
      (by decide)

/-- Witness for C9: on a store already holding "u", a second insert of
"u" errors, and a reporter run beginning with an old 404 for "u" aborts
with that error. -/
theorem c9_duplicate_add_url_aborts_run_witness :
    add_url ["u"] "u" = .error "UNIQUE constraint failed: missing.url" ∧
    run_reporter ⟨2024, 1, 1, 0, 0, 0⟩ ["u"]
        [.URLNotFound
          { site := "kmso", model := .GFS,
            init_time := ⟨2020, 1, 1, 0, 0, 0⟩, url := "u" }] =
      .error "UNIQUE constraint failed: missing.url" := by
  refine ⟨?_, ?_⟩
  · exact (c9_duplicate_add_url_aborts_run ["u"] "u" (by decide)).1
  · exact (c9_duplicate_add_url_aborts_run ["u"] "u" (by decide)).2
      ⟨2024, 1, 1, 0, 0, 0⟩
      { site := "kmso", model := .GFS,
        init_time := ⟨2020, 1, 1, 0, 0, 0⟩, url := "u" } [] rfl (by decide)

end Bfkmd
